import Mathlib

/-!
Verification development for the attendance-tracking mobile client.

The core of the repository is the attendance-action verification pipeline
(location probe, geofence evaluation, biometric gate, single submission)
and the work/class attendance state reconciliation.  Below, each service
function that the claims depend on is shallowly embedded as a pure Lean
function.  Asynchronous collaborators (the platform location capability,
the biometric prompt, the network) are modelled by passing the result each
collaborator would return as an explicit argument, and the sequencing of
an action is recorded as a trace of steps, so ordering and short-circuit
properties become statements about the produced trace.

Numeric values carried by the pipeline (coordinates, accuracy, distance)
are modelled as rationals; the great-circle distance function itself is
modelled over the reals.
-/

namespace Attend

/-! ## JS value helpers -/

/-- JS truthiness of an optional string: absent and the empty string are falsy. -/
def jsTruthyStr (o : Option String) : Bool :=
  match o with
  | some s => s ≠ ""
  | none => false

/-- JS Math.round: round half up, i.e. the floor of q + 1/2, computed on a
rational num/den as the floor division (2*num + den) / (2*den). -/
def jsRound (q : ℚ) : ℤ := Int.fdiv (2 * q.num + q.den) (2 * q.den)

/-! ## Data model (types/Location.ts, types/Attendance.ts) -/

/-- types/Location.ts LocationData. -/
structure LocationData where
  latitude : ℚ
  longitude : ℚ
  accuracy : ℚ
  timestamp : ℤ
deriving DecidableEq, Repr

/-- services/LocationService.ts LocationResult: the value returned by
LocationService.getCurrentLocation.  The optional fields are present on the
success path and absent on the failure path. -/
structure LocationResult where
  success : Bool
  location : Option LocationData
  withinGeofence : Option Bool
  distance : Option ℚ
  error : Option String
deriving DecidableEq, Repr

/-- services/BiometricService.ts BiometricResult (the biometricType field,
which no caller consults for control flow, is omitted). -/
structure BiometricResult where
  success : Bool
  error : Option String
deriving DecidableEq, Repr

/-- The `{ success, data?, error? }` envelope of the attendance API, as far
as the submission path inspects it. -/
structure ApiResponse where
  success : Bool
  error : Option String
deriving DecidableEq, Repr

/-- The four attendance action kinds (the `type` strings of the source). -/
inductive AttendanceType where
  | work_checkin
  | work_checkout
  | class_checkin
  | class_checkout
deriving DecidableEq, BEq, Repr

/-- services/AttendanceService AttendanceRequest: the body submitted to the
attendance API. -/
structure AttendanceRequest where
  type : AttendanceType
  location : LocationData
  biometric_verified : Bool
  class_id : Option ℤ
deriving DecidableEq, Repr

/-- One observable step of an attendance action: acquiring a location
sample, consuming the geofence verdict, issuing the biometric prompt, and
posting a request to the attendance API. -/
inductive Step where
  | locate
  | evalGeofence
  | promptBiometric
  | submit (req : AttendanceRequest)
deriving DecidableEq, Repr

/-- Used where the source applies the non-null assertion
`locationResult.location!`; on every path that reaches it the location is
in fact present, so this default is never read. -/
def defaultLocation : LocationData :=
  { latitude := 0, longitude := 0, accuracy := 0, timestamp := 0 }

/-! ## BiometricService (services/BiometricService.ts, part_009) -/

/-- The platform facts BiometricService.authenticateWithBiometrics consults:
the platform branch, the web-simulation confirm dialog, and the native
hardware / enrollment / LocalAuthentication.authenticateAsync outcomes. -/
structure BioEnv where
  isWeb : Bool
  windowAvailable : Bool
  webConfirm : Bool
  hasHardware : Bool
  isEnrolled : Bool
  challengeSuccess : Bool
  challengeError : Option String
deriving DecidableEq, Repr

/-- BiometricService.authenticateWithBiometrics (part_009 lines 58-130).
On web it reduces the simulated confirm dialog to success/failure; on
native it checks hardware support, then enrollment, then the result of the
platform challenge, each failure short-circuiting with its own message. -/
def authenticateWithBiometrics (e : BioEnv) : BiometricResult :=
  if e.isWeb then
    if e.windowAvailable then
      { success := e.webConfirm,
        error := if e.webConfirm then none else some "User cancelled authentication" }
    else
      { success := false, error := some "Web environment not available" }
  else if !e.hasHardware then
    { success := false,
      error := some "Biometric authentication is not supported on this device" }
  else if !e.isEnrolled then
    { success := false,
      error := some "No biometric credentials are enrolled on this device" }
  else if e.challengeSuccess then
    { success := true, error := none }
  else
    { success := false, error := some (e.challengeError.getD "Authentication failed") }

/-! ## The action environment -/

/-- The results the three collaborators of one attendance action would
return: the location probe, the biometric gate, and the attendance API. -/
structure Env where
  locationResult : LocationResult
  biometricResult : BiometricResult
  submitResponse : ApiResponse
deriving DecidableEq, Repr

/-- Request construction of AttendanceService.markAttendance
(src/services/ApiService.ts lines 481-486) and of handleAttendanceAction
(src/app/index.tsx lines 477-482):
the spread of `classId && \x7b class_id: classId \x7d` adds the field only
when classId is truthy, and in JS both undefined and 0 are falsy. -/
def buildAttendanceRequest (type : AttendanceType) (loc : LocationData)
    (classId : Option ℤ) : AttendanceRequest :=
  { type := type
    location := loc
    biometric_verified := true
    class_id :=
      match classId with
      | some c => if c = 0 then none else some c
      | none => none }

/-- The discriminated returns of AttendanceService.markAttendance
(src/services/ApiService.ts lines 445-499): the location-failure object,
the out-of-range object (which alone carries a distance field), the
biometric-failure object, and the attendance API response passed through. -/
inductive MarkOutcome where
  | locationFailed (error : String)
  | outOfRange (error : String) (distance : Option ℚ)
  | biometricFailed (error : String)
  | apiResult (r : ApiResponse)
deriving DecidableEq, Repr

/-- AttendanceService.markAttendance (src/services/ApiService.ts lines
445-499).  Step 1 acquires the location; step 2 tests the geofence verdict
(`!locationResult.withinGeofence`; an absent verdict is falsy); step 3 runs
the biometric gate; steps 4-5 build the request and submit it once.  The
second component is the trace of steps executed. -/
def markAttendance (env : Env) (type : AttendanceType) (classId : Option ℤ) :
    MarkOutcome × List Step :=
  let locationResult := env.locationResult
  if !locationResult.success || locationResult.location.isNone then
    (.locationFailed (locationResult.error.getD "Could not get your current location"),
     [.locate])
  else if !(locationResult.withinGeofence.getD false) then
    (.outOfRange
      ("You must be within the school premises to mark attendance. You are "
        ++ toString (jsRound (locationResult.distance.getD 0)) ++ "m away.")
      locationResult.distance,
     [.locate, .evalGeofence])
  else if !env.biometricResult.success then
    (.biometricFailed (env.biometricResult.error.getD "Biometric verification is required"),
     [.locate, .evalGeofence, .promptBiometric])
  else
    let req := buildAttendanceRequest type (locationResult.location.getD defaultLocation) classId
    (.apiResult env.submitResponse,
     [.locate, .evalGeofence, .promptBiometric, .submit req])

/-! ## Dashboard records and state (src/app/index.tsx) -/

/-- A work attendance record as the dashboard reads it. -/
structure WorkRecord where
  id : ℤ
  date : Option String
  check_in_time : Option String
  check_out_time : Option String
  status : Option String
deriving DecidableEq, Repr

/-- A class attendance record as the dashboard reads it. -/
structure ClassRecord where
  id : ℤ
  class_id : ℤ
  class_name : Option String
  check_in_time : Option String
  check_out_time : Option String
deriving DecidableEq, Repr

/-- The `today` object of the dashboard attendance state built by
loadAttendanceData (src/app/index.tsx lines 136-146). -/
structure TodayView where
  work_attendance : Option WorkRecord
  is_checked_in : Bool
  class_attendance : List ClassRecord
  active_class_session : Option ClassRecord
deriving DecidableEq, Repr

/-- The dashboard attendance state set by setAttendanceData. -/
structure AttendanceView where
  today : TodayView
  history : List WorkRecord
  classHistory : List ClassRecord
  current_date : String
deriving DecidableEq, Repr

/-- The component state handleAttendanceAction touches: the held
attendance view and the actionLoading busy flag. -/
structure DashState where
  attendanceData : Option AttendanceView
  actionLoading : Option AttendanceType
deriving DecidableEq, Repr

/-- The user-facing terminal alerts of the dashboard action handlers. -/
inductive HandlerOutcome where
  | locationAlert (distance : Option ℚ)
  | authAlert (error : String)
  | successAlert
  | errorAlert (error : String)
  | precondAlert (message : String)
deriving DecidableEq, Repr

/-- Trace of the combined location/geofence guard
`!locationResult.success || !locationResult.withinGeofence`: by JS
short-circuit evaluation the geofence verdict is consumed only when the
probe succeeded. -/
def locateTrace (r : LocationResult) : List Step :=
  if r.success then [.locate, .evalGeofence] else [.locate]

/-- handleAttendanceAction (src/app/index.tsx lines 443-516).  Sets the
actionLoading busy flag on entry, probes the location, tests the combined
success/geofence guard, runs the biometric gate, builds the request (with
the conditional class_id spread) and submits once; the finally block
clears actionLoading. -/
def handleAttendanceAction (st : DashState) (env : Env) (type : AttendanceType)
    (classId : Option ℤ) : HandlerOutcome × List Step × DashState :=
  let st1 : DashState := { st with actionLoading := some type }
  let locationResult := env.locationResult
  if !locationResult.success || !(locationResult.withinGeofence.getD false) then
    (.locationAlert locationResult.distance, locateTrace locationResult,
     { st1 with actionLoading := none })
  else if !env.biometricResult.success then
    (.authAlert (env.biometricResult.error.getD "Biometric authentication is required"),
     [.locate, .evalGeofence, .promptBiometric],
     { st1 with actionLoading := none })
  else
    let req := buildAttendanceRequest type (locationResult.location.getD defaultLocation) classId
    ((if env.submitResponse.success then .successAlert
      else .errorAlert (env.submitResponse.error.getD "Failed to record attendance")),
     [.locate, .evalGeofence, .promptBiometric, .submit req],
     { st1 with actionLoading := none })

/-- handleWorkCheckIn (src/app/index.tsx lines 297-299): delegates directly
to handleAttendanceAction with no precondition of its own. -/
def handleWorkCheckIn (st : DashState) (env : Env) :
    HandlerOutcome × List Step × DashState :=
  handleAttendanceAction st env .work_checkin none

/-- handleClassAttendanceAction (src/app/index.tsx lines 345-440): checks
the work check-in precondition against the held view, then location and
geofence, then biometric, then submits the class attendance request (whose
class_id field is unconditional here) once. -/
def handleClassAttendanceAction (st : DashState) (env : Env)
    (type : AttendanceType) (classId : ℤ) :
    HandlerOutcome × List Step × DashState :=
  let st1 : DashState := { st with actionLoading := some type }
  let isCheckedIn :=
    match st.attendanceData with
    | some ad => ad.today.is_checked_in
    | none => false
  if !isCheckedIn then
    (.precondAlert "You must check into work before checking into classes.", [],
     { st1 with actionLoading := none })
  else
    let locationResult := env.locationResult
    if !locationResult.success || !(locationResult.withinGeofence.getD false) then
      (.locationAlert locationResult.distance, locateTrace locationResult,
       { st1 with actionLoading := none })
    else if !env.biometricResult.success then
      (.authAlert (env.biometricResult.error.getD "Biometric authentication is required"),
       [.locate, .evalGeofence, .promptBiometric],
       { st1 with actionLoading := none })
    else
      let req : AttendanceRequest :=
        { type := type
          location := locationResult.location.getD defaultLocation
          biometric_verified := true
          class_id := some classId }
      ((if env.submitResponse.success then .successAlert
        else .errorAlert (env.submitResponse.error.getD "Failed to record class attendance")),
       [.locate, .evalGeofence, .promptBiometric, .submit req],
       { st1 with actionLoading := none })

/-- Location status badge values of the dashboard. -/
inductive LocationStatus where
  | unknown
  | inside
  | outside
deriving DecidableEq, BEq, Repr

/-- The disabled predicate of the work Check In button
(src/app/index.tsx line 810). -/
def workCheckInButtonDisabled (isCheckedIn : Bool) (ls : LocationStatus)
    (actionLoading : Option AttendanceType) : Bool :=
  isCheckedIn || decide (ls ≠ .inside) || decide (actionLoading = some .work_checkin)

/-- The disabled predicate of the work Check Out button
(src/app/index.tsx line 819). -/
def workCheckOutButtonDisabled (isCheckedIn : Bool) (ls : LocationStatus)
    (actionLoading : Option AttendanceType) : Bool :=
  !isCheckedIn || decide (ls ≠ .inside) || decide (actionLoading = some .work_checkout)

/-- LocationService.isWithinGeofence (src/services/LocationService.ts lines
178-181): `result.withinGeofence || false`, so an absent verdict (every
failed acquisition) reads as outside. -/
def isWithinGeofence (r : LocationResult) : Bool :=
  r.withinGeofence.getD false

/-! ## ApiService with fallback (src/unnamed/part_010 lines 666-888) -/

/-- HTTP methods dispatched by makeRequestWithFallback. -/
inductive Method where
  | get
  | post
  | put
  | delete
deriving DecidableEq, BEq, Repr

/-- The two axios instances: primary base URL and the production fallback
base URL. -/
inductive Server where
  | primary
  | fallback
deriving DecidableEq, BEq, Repr

/-- One HTTP attempt actually issued by makeRequestWithFallback. -/
structure Attempt where
  server : Server
  method : Method
  endpoint : String
deriving DecidableEq, Repr

/-- What a single axios call would yield: a response body, or a thrown
error (network failure or error status) with its message. -/
inductive ReqResult where
  | ok (resp : ApiResponse)
  | err (message : String)
deriving DecidableEq, Repr

/-- The API_CONFIG state makeRequestWithFallback consults: the production
flag and the isUsingFallback flag.  The fallback axios instance exists
exactly when IS_PROD (constructor, part_010 lines 692-700). -/
structure FallbackConfig where
  isProd : Bool
  usingFallback : Bool
deriving DecidableEq, Repr

/-- ApiService.handleError (part_010 lines 611-636): every branch produces
a `success: false` envelope carrying an error message. -/
def handleError (message : String) : ApiResponse :=
  { success := false, error := some message }

/-- ApiService.makeRequestWithFallback (part_010 lines 751-821).  Tries the
primary server; on success resets isUsingFallback if it was set.  On a
primary failure, when IS_PROD, the fallback instance exists and the config
is not already on the fallback, it switches to the fallback URL and issues
the same request once more there; a fallback failure resets to primary and
surfaces the error.  Otherwise the primary error is surfaced.  Returns the
response, the list of attempts actually issued, and the updated config. -/
def makeRequestWithFallback (cfg : FallbackConfig)
    (primaryResult fallbackResult : ReqResult)
    (method : Method) (endpoint : String) :
    ApiResponse × List Attempt × FallbackConfig :=
  let primaryAttempt : Attempt := { server := .primary, method := method, endpoint := endpoint }
  let fallbackAttempt : Attempt := { server := .fallback, method := method, endpoint := endpoint }
  match primaryResult with
  | .ok resp =>
    (resp, [primaryAttempt],
     if cfg.usingFallback then { cfg with usingFallback := false } else cfg)
  | .err primaryMsg =>
    if cfg.isProd && !cfg.usingFallback then
      match fallbackResult with
      | .ok resp =>
        (resp, [primaryAttempt, fallbackAttempt], { cfg with usingFallback := true })
      | .err fallbackMsg =>
        (handleError fallbackMsg, [primaryAttempt, fallbackAttempt],
         { cfg with usingFallback := false })
    else
      (handleError primaryMsg, [primaryAttempt], cfg)

/-- Number of submissions (HTTP attempts) a trace of attempts contains for
a given server. -/
def attemptsTo (s : Server) (l : List Attempt) : ℕ :=
  l.countP (fun a => a.server = s)

/-! ## Attendance data reconciliation (part_010 lines 104-186 and 436-489,
and src/app/index.tsx lines 113-191) -/

/-- A generic `{ success, data?, error? }` fetch envelope. -/
structure GetResp (α : Type) where
  success : Bool
  data : Option α
  error : Option String
deriving DecidableEq, Repr

/-- The raw unified-endpoint payload getAttendanceData reads: a role, the
attendance record list, and the server isCheckedIn flag (absent unless
the server sent it). -/
structure RawAttendanceResponse where
  role : String
  attendanceData : List WorkRecord
  isCheckedIn : Option Bool
deriving DecidableEq, Repr

/-- The `work.today` object of the transformed structure. -/
structure WorkToday where
  work_attendance : Option WorkRecord
  is_checked_in : Bool
deriving DecidableEq, Repr

/-- The `work` object of the transformed structure. -/
structure WorkData where
  today : WorkToday
  history : List WorkRecord
  current_date : String
deriving DecidableEq, Repr

/-- The `today` object of the class attendance payload. -/
structure ClassToday where
  class_attendance : List ClassRecord
  active_class_session : Option ClassRecord
deriving DecidableEq, Repr

/-- The class attendance payload returned by getClassAttendanceData. -/
structure ClassData where
  today : ClassToday
  history : List ClassRecord
  current_date : Option String
deriving DecidableEq, Repr

/-- The transformed structure built by getAttendanceData: a work part and
a constant empty class stub. -/
structure TransformedAttendance where
  work : WorkData
  classPart : ClassData
deriving DecidableEq, Repr

/-- The default transformed structure getAttendanceData initializes
(part_010 lines 112-127). -/
def defaultTransformed (today : String) : TransformedAttendance :=
  { work :=
      { today := { work_attendance := none, is_checked_in := false }
        history := []
        current_date := today }
    classPart :=
      { today := { class_attendance := [], active_class_session := none }
        history := []
        current_date := none } }

/-- ApiService.getAttendanceData (part_010 lines 104-186), after the raw
GET of the unified endpoint.  `normDate` models the day-key
normalization of the source `new Date(d).toISOString().split(T)[0]` and `today`
the current day key.  On an employee payload it seeds is_checked_in from
the truthiness of the server flag, finds the record for today, stores it, and
upgrades is_checked_in to true when the flag was falsy but the record has
a check-in time and no check-out time.  Admin payloads get history only;
an unauthenticated role is surfaced as a failure; a raw failure is passed
through. -/
def getAttendanceDataTransform (normDate : String → String) (today : String)
    (resp : GetResp RawAttendanceResponse) : GetResp TransformedAttendance :=
  if resp.success then
    let base := defaultTransformed today
    match resp.data with
    | none =>
      -- responseData falls back to the envelope itself, which has no role,
      -- so no branch fires and the initialized structure is returned.
      { success := true, data := some base, error := none }
    | some rd =>
      if rd.role = "employee" then
        let attendanceRecords := rd.attendanceData
        let flagCheckedIn := rd.isCheckedIn == some true
        let todayRecord := attendanceRecords.find? (fun r =>
          match r.date with
          | none => false
          | some d => normDate d = today)
        let workToday : WorkToday :=
          match todayRecord with
          | some tr =>
            { work_attendance := some tr
              is_checked_in :=
                if !flagCheckedIn && jsTruthyStr tr.check_in_time
                    && !jsTruthyStr tr.check_out_time then
                  true
                else flagCheckedIn }
          | none => { work_attendance := none, is_checked_in := flagCheckedIn }
        { success := true
          data := some
            { base with
              work := { today := workToday, history := attendanceRecords, current_date := today } }
          error := none }
      else if rd.role = "admin" then
        { success := true
          data := some
            { base with
              work :=
                { today := { work_attendance := none, is_checked_in := false }
                  history := rd.attendanceData
                  current_date := today } }
          error := none }
      else if rd.role = "unauthenticated" then
        { success := false, data := none, error := some "User is not authenticated" }
      else
        { success := true, data := some base, error := none }
  else
    { success := resp.success, data := none, error := resp.error }

/-- The combined payload built by getAllAttendanceData; on the failure
branch either part can be null. -/
structure CombinedAttendance where
  work : Option WorkData
  classData : Option ClassData
deriving DecidableEq, Repr

/-- The default work object getAllAttendanceData substitutes
(part_010 lines 452-459). -/
def defaultCombinedWork (today : String) : WorkData :=
  { today := { work_attendance := none, is_checked_in := false }
    history := []
    current_date := today }

/-- The default class object getAllAttendanceData substitutes
(part_010 lines 460-467). -/
def defaultCombinedClass (today : String) : ClassData :=
  { today := { class_attendance := [], active_class_session := none }
    history := []
    current_date := some today }

/-- ApiService.getAllAttendanceData (part_010 lines 436-489): fires the
work and class fetches, and when BOTH succeed combines them (substituting
defaults for absent parts) under success: true.  When either fails it
returns success: false with the partial data attached. -/
def getAllAttendanceData (today : String)
    (workResponse : GetResp TransformedAttendance)
    (classResponse : GetResp ClassData) : GetResp CombinedAttendance :=
  if workResponse.success && classResponse.success then
    { success := true
      data := some
        { work := some ((workResponse.data.map (fun t => t.work)).getD (defaultCombinedWork today))
          classData := some (classResponse.data.getD (defaultCombinedClass today)) }
      error := none }
  else
    { success := false
      data := some
        { work := workResponse.data.map (fun t => t.work)
          classData := classResponse.data }
      error := some "Failed to fetch complete attendance data" }

/-- The empty default dashboard view loadAttendanceData resets to
(src/app/index.tsx lines 160-170 and 175-185). -/
def emptyView (today : String) : AttendanceView :=
  { today :=
      { work_attendance := none
        is_checked_in := false
        class_attendance := []
        active_class_session := none }
    history := []
    classHistory := []
    current_date := today }

/-- loadAttendanceData (src/app/index.tsx lines 113-191): when the combined
response is successful and carries data, builds the dashboard view from the
work and class parts with per-field defaults; otherwise it resets the view
to the empty default state. -/
def loadAttendanceData (today : String)
    (response : GetResp CombinedAttendance) : AttendanceView :=
  if response.success then
    match response.data with
    | some d =>
      { today :=
          { work_attendance := d.work.bind (fun w => w.today.work_attendance)
            is_checked_in := (d.work.map (fun w => w.today.is_checked_in)).getD false
            class_attendance := (d.classData.map (fun c => c.today.class_attendance)).getD []
            active_class_session := d.classData.bind (fun c => c.today.active_class_session) }
        history := (d.work.map (fun w => w.history)).getD []
        classHistory := (d.classData.map (fun c => c.history)).getD []
        current_date := (d.work.map (fun w => w.current_date)).getD today }
    | none => emptyView today
  else
    emptyView today

/-! ## Great-circle distance (src/services/LocationService.ts lines 158-176
and src/services/ApiService.ts lines 523-536) -/

/-- JS Math.atan2 on the reals (signed zeros aside, which the distance
computation cannot produce). -/
noncomputable def jsAtan2 (y x : ℝ) : ℝ :=
  if 0 < x then Real.arctan (y / x)
  else if x < 0 then
    (if 0 ≤ y then Real.arctan (y / x) + Real.pi else Real.arctan (y / x) - Real.pi)
  else
    (if 0 < y then Real.pi / 2 else if y < 0 then -(Real.pi / 2) else 0)

/-- The haversine intermediate `a` of calculateDistance. -/
noncomputable def haversineA (lat1 lon1 lat2 lon2 : ℝ) : ℝ :=
  Real.sin ((lat2 - lat1) * Real.pi / 180 / 2) * Real.sin ((lat2 - lat1) * Real.pi / 180 / 2) +
    Real.cos (lat1 * Real.pi / 180) * Real.cos (lat2 * Real.pi / 180) *
      Real.sin ((lon2 - lon1) * Real.pi / 180 / 2) *
      Real.sin ((lon2 - lon1) * Real.pi / 180 / 2)

/-- LocationService.calculateDistance (src/services/LocationService.ts
lines 158-176): haversine great-circle distance with mean Earth radius
6371e3 meters, modelled over the reals. -/
noncomputable def calculateDistance (lat1 lon1 lat2 lon2 : ℝ) : ℝ :=
  let R : ℝ := 6371000
  let a := haversineA lat1 lon1 lat2 lon2
  let c := 2 * jsAtan2 (Real.sqrt a) (Real.sqrt (1 - a))
  R * c

/-- AttendanceService.calculateDistance (src/services/ApiService.ts lines
523-536): textually the same haversine computation as
LocationService.calculateDistance. -/
noncomputable def attendanceCalculateDistance (lat1 lon1 lat2 lon2 : ℝ) : ℝ :=
  let R : ℝ := 6371000
  let a := haversineA lat1 lon1 lat2 lon2
  let c := 2 * jsAtan2 (Real.sqrt a) (Real.sqrt (1 - a))
  R * c

/-! ## Concrete sample inputs used by witnesses and counterexamples -/

/-- A location sample near the school geofence center. -/
def goodLoc : LocationData :=
  { latitude := -1, longitude := 37, accuracy := 5, timestamp := 1760000000000 }

/-- A successful acquisition inside the fence. -/
def locInside : LocationResult :=
  { success := true, location := some goodLoc, withinGeofence := some true
    distance := some 3, error := none }

/-- A successful acquisition 111 meters outside the fence. -/
def locOutside : LocationResult :=
  { success := true, location := some goodLoc, withinGeofence := some false
    distance := some 111, error := none }

/-- A failed acquisition (permission denied). -/
def locFailed : LocationResult :=
  { success := false, location := none, withinGeofence := none
    distance := none, error := some "Location permission denied" }

/-- A successful biometric gate result. -/
def bioOk : BiometricResult := { success := true, error := none }

/-- A failed biometric gate result. -/
def bioFail : BiometricResult :=
  { success := false, error := some "Biometric authentication failed or was cancelled" }

/-- A successful submission response. -/
def apiOk : ApiResponse := { success := true, error := none }

/-- Every collaborator succeeds. -/
def envAllGood : Env :=
  { locationResult := locInside, biometricResult := bioOk, submitResponse := apiOk }

/-- Location acquisition succeeds but the sample is out of range. -/
def envOutside : Env :=
  { locationResult := locOutside, biometricResult := bioOk, submitResponse := apiOk }

/-- Location acquisition fails. -/
def envLocFailed : Env :=
  { locationResult := locFailed, biometricResult := bioOk, submitResponse := apiOk }

/-- LocationService.getCurrentLocation, mobile path
(src/services/LocationService.ts lines 110-155).  The platform permission
grant, the position fix (none when getCurrentPositionAsync throws) and the
computed haversine distance are inputs.  Every failure path returns only
success and error; every success path carries the location, the geofence
verdict distance <= radius, and the rounded distance. -/
def getCurrentLocation (hasPermission : Bool) (fix : Option LocationData)
    (distance : ℚ) (radius : ℚ) : LocationResult :=
  if !hasPermission then
    { success := false, location := none, withinGeofence := none
      distance := none, error := some "Location permission denied" }
  else
    match fix with
    | none =>
      { success := false, location := none, withinGeofence := none
        distance := none, error := some "Failed to get location" }
    | some loc =>
      { success := true
        location := some loc
        withinGeofence := some (decide (distance ≤ radius))
        distance := some ((jsRound distance : ℤ) : ℚ)
        error := none }

/-- A native platform state whose biometric challenge succeeds. -/
def beOk : BioEnv :=
  { isWeb := false, windowAvailable := false, webConfirm := false
    hasHardware := true, isEnrolled := true, challengeSuccess := true
    challengeError := none }

/-- Number of submissions a step trace contains. -/
def countSubmits (t : List Step) : ℕ :=
  t.countP fun s =>
    match s with
    | .submit _ => true
    | _ => false

/-- The current calendar day key used by the concrete scenarios. -/
def todayKey : String := "2026-10-11"

/-- A work record for today with a check-in time and no check-out time. -/
def workRecToday : WorkRecord :=
  { id := 1, date := some todayKey
    check_in_time := some "2026-10-11T08:00:00.000Z"
    check_out_time := none, status := some "Present" }

/-- An employee payload whose server flag says checked in. -/
def rawEmployeeCheckedIn : GetResp RawAttendanceResponse :=
  { success := true
    data := some
      { role := "employee", attendanceData := [workRecToday], isCheckedIn := some true }
    error := none }

/-- An employee payload carrying an explicit false isCheckedIn flag next to
a today record that has a check-in time and no check-out time. -/
def rawEmployeeFlagFalse : GetResp RawAttendanceResponse :=
  { success := true
    data := some
      { role := "employee", attendanceData := [workRecToday], isCheckedIn := some false }
    error := none }

/-- The work fetch result of the concrete partial-failure scenario. -/
def c4WorkResp : GetResp TransformedAttendance :=
  getAttendanceDataTransform (fun s => s) todayKey rawEmployeeCheckedIn

/-- A failed class attendance fetch. -/
def classFetchFailed : GetResp ClassData :=
  { success := false, data := none
    error := some "Network error. Please check your internet connection." }

/-- A dashboard view in which the user is checked in to work today. -/
def viewCheckedIn : AttendanceView :=
  { today :=
      { work_attendance := some workRecToday
        is_checked_in := true
        class_attendance := []
        active_class_session := none }
    history := [workRecToday]
    classHistory := []
    current_date := todayKey }

/-- Dashboard state: checked in to work, no action in flight. -/
def stCheckedIn : DashState :=
  { attendanceData := some viewCheckedIn, actionLoading := none }

/-- Dashboard state during a first in-flight work checkout: the busy flag
actionLoading is set to work_checkout. -/
def stBusyCheckOut : DashState :=
  { attendanceData := some viewCheckedIn, actionLoading := some .work_checkout }

/-! ## Helper characterizations (definitional unfoldings) -/

/-- Unfolding of markAttendance as a conditional chain. -/
theorem markAttendance_eq (env : Env) (t : AttendanceType) (cid : Option ℤ) :
    markAttendance env t cid =
      if !env.locationResult.success || env.locationResult.location.isNone then
        (.locationFailed (env.locationResult.error.getD "Could not get your current location"),
         [.locate])
      else if !(env.locationResult.withinGeofence.getD false) then
        (.outOfRange
          ("You must be within the school premises to mark attendance. You are "
            ++ toString (jsRound (env.locationResult.distance.getD 0)) ++ "m away.")
          env.locationResult.distance,
         [.locate, .evalGeofence])
      else if !env.biometricResult.success then
        (.biometricFailed (env.biometricResult.error.getD "Biometric verification is required"),
         [.locate, .evalGeofence, .promptBiometric])
      else
        (.apiResult env.submitResponse,
         [.locate, .evalGeofence, .promptBiometric,
          .submit (buildAttendanceRequest t
            (env.locationResult.location.getD defaultLocation) cid)]) := rfl

/-- Unfolding of handleAttendanceAction as a conditional chain. -/
theorem handleAttendanceAction_eq (st : DashState) (env : Env) (t : AttendanceType)
    (cid : Option ℤ) :
    handleAttendanceAction st env t cid =
      if !env.locationResult.success || !(env.locationResult.withinGeofence.getD false) then
        (.locationAlert env.locationResult.distance, locateTrace env.locationResult,
         { st with actionLoading := none })
      else if !env.biometricResult.success then
        (.authAlert (env.biometricResult.error.getD "Biometric authentication is required"),
         [.locate, .evalGeofence, .promptBiometric],
         { st with actionLoading := none })
      else
        ((if env.submitResponse.success then .successAlert
          else .errorAlert (env.submitResponse.error.getD "Failed to record attendance")),
         [.locate, .evalGeofence, .promptBiometric,
          .submit (buildAttendanceRequest t
            (env.locationResult.location.getD defaultLocation) cid)],
         { st with actionLoading := none }) := rfl

/-! ## C1: ordered, fail-fast pipeline -/

/-- C1: every attendance action (work or class, check-in or check-out)
executes location acquisition, then geofence evaluation, then the
biometric challenge, then a single submission, in that fixed order; the
trace of every run is one of the four prefixes of that sequence (so the
action short-circuits at the first failing step, and at most one
submission occurs); and a successfully acquired sample outside the
geofence yields the out-of-range failure carrying the probe distance,
with neither the biometric prompt nor the submission invoked.  This holds
both for AttendanceService.markAttendance and for the dashboard
handler handleAttendanceAction. -/
theorem c1_ordered_fail_fast (env : Env) (t : AttendanceType) (cid : Option ℤ) :
    ((markAttendance env t cid).2 = [.locate]
      ∨ (markAttendance env t cid).2 = [.locate, .evalGeofence]
      ∨ (markAttendance env t cid).2 = [.locate, .evalGeofence, .promptBiometric]
      ∨ ∃ req, (markAttendance env t cid).2
          = [.locate, .evalGeofence, .promptBiometric, .submit req])
    ∧ (env.locationResult.success = true →
        env.locationResult.location.isSome = true →
        env.locationResult.withinGeofence.getD false = false →
        (∃ msg, (markAttendance env t cid).1
            = .outOfRange msg env.locationResult.distance)
          ∧ (markAttendance env t cid).2 = [.locate, .evalGeofence])
    ∧ (∀ st, (handleAttendanceAction st env t cid).2.1 = [.locate]
        ∨ (handleAttendanceAction st env t cid).2.1 = [.locate, .evalGeofence]
        ∨ (handleAttendanceAction st env t cid).2.1
            = [.locate, .evalGeofence, .promptBiometric]
        ∨ ∃ req, (handleAttendanceAction st env t cid).2.1
            = [.locate, .evalGeofence, .promptBiometric, .submit req])
    ∧ (∀ st, env.locationResult.success = true →
        env.locationResult.withinGeofence.getD false = false →
        (handleAttendanceAction st env t cid).1
            = .locationAlert env.locationResult.distance
          ∧ (handleAttendanceAction st env t cid).2.1
            = [.locate, .evalGeofence]) := by
  obtain ⟨⟨ls, lloc, lwg, ld, lerr⟩, ⟨bs, berr⟩, ⟨ss, serr⟩⟩ := env
  refine ⟨?_, ?_, ?_, ?_⟩ <;>
    simp only [markAttendance, handleAttendanceAction, locateTrace] <;>
    cases ls <;> cases bs <;> cases ss <;>
    rcases lwg with _ | (_ | _) <;> rcases lloc with _ | loc <;>
    simp

/-- Witness for C1: at the concrete out-of-range environment the action
fails with the out-of-range outcome carrying the 111 m distance and stops
after the geofence evaluation. -/
theorem c1_ordered_fail_fast_witness :
    (∃ msg, (markAttendance envOutside .work_checkin none).1
        = .outOfRange msg envOutside.locationResult.distance)
      ∧ (markAttendance envOutside .work_checkin none).2 = [.locate, .evalGeofence] :=
  (c1_ordered_fail_fast envOutside .work_checkin none).2.1 rfl rfl rfl

/-! ## C2: no biometric bypass -/

/-- The biometric gate reports success exactly when the platform challenge
(the simulated confirm dialog on web, LocalAuthentication on native, the
latter requiring hardware and enrollment) succeeded. -/
theorem authenticate_success_iff (e : BioEnv) :
    (authenticateWithBiometrics e).success = true ↔
      (e.isWeb = true ∧ e.windowAvailable = true ∧ e.webConfirm = true)
        ∨ (e.isWeb = false ∧ e.hasHardware = true ∧ e.isEnrolled = true
            ∧ e.challengeSuccess = true) := by
  obtain ⟨w, wa, wc, hh, en, cs, ce⟩ := e
  cases w <;> cases wa <;> cases wc <;> cases hh <;> cases en <;> cases cs <;>
    simp [authenticateWithBiometrics]

/-- A request submitted by markAttendance has biometric_verified set and
was preceded by a successful biometric gate result. -/
theorem markAttendance_submit_mem (env : Env) (t : AttendanceType)
    (cid : Option ℤ) (req : AttendanceRequest)
    (h : Step.submit req ∈ (markAttendance env t cid).2) :
    req.biometric_verified = true ∧ env.biometricResult.success = true := by
  obtain ⟨⟨ls, lloc, lwg, ld, lerr⟩, ⟨bs, berr⟩, ⟨ss, serr⟩⟩ := env
  cases ls <;> cases bs <;> rcases lwg with _ | (_ | _) <;>
    rcases lloc with _ | loc <;>
    simp only [markAttendance] at h <;> simp_all [buildAttendanceRequest]

/-- A request submitted by handleAttendanceAction has biometric_verified
set and was preceded by a successful biometric gate result. -/
theorem handleAttendanceAction_submit_mem (st : DashState) (env : Env)
    (t : AttendanceType) (cid : Option ℤ) (req : AttendanceRequest)
    (h : Step.submit req ∈ (handleAttendanceAction st env t cid).2.1) :
    req.biometric_verified = true ∧ env.biometricResult.success = true := by
  obtain ⟨⟨ls, lloc, lwg, ld, lerr⟩, ⟨bs, berr⟩, ⟨ss, serr⟩⟩ := env
  cases ls <;> cases bs <;> cases ss <;> rcases lwg with _ | (_ | _) <;>
    rcases lloc with _ | loc <;>
    simp only [handleAttendanceAction, locateTrace] at h <;>
    simp_all [buildAttendanceRequest]

/-- A request submitted by handleClassAttendanceAction has
biometric_verified set and was preceded by a successful biometric gate
result. -/
theorem handleClassAttendanceAction_submit_mem (st : DashState) (env : Env)
    (t : AttendanceType) (c : ℤ) (req : AttendanceRequest)
    (h : Step.submit req ∈ (handleClassAttendanceAction st env t c).2.1) :
    req.biometric_verified = true ∧ env.biometricResult.success = true := by
  obtain ⟨⟨ls, lloc, lwg, ld, lerr⟩, ⟨bs, berr⟩, ⟨ss, serr⟩⟩ := env
  obtain ⟨ad, al⟩ := st
  rcases ad with _ | av
  · cases ls <;> cases bs <;> cases ss <;> rcases lwg with _ | (_ | _) <;>
      rcases lloc with _ | loc <;>
      simp only [handleClassAttendanceAction, locateTrace] at h <;>
      simp_all
  · cases hci : av.today.is_checked_in <;>
      cases ls <;> cases bs <;> cases ss <;> rcases lwg with _ | (_ | _) <;>
      rcases lloc with _ | loc <;>
      simp only [handleClassAttendanceAction, locateTrace, hci] at h <;>
      simp_all

/-- C2: in every execution of any of the three submission paths
(markAttendance, handleAttendanceAction, handleClassAttendanceAction)
whose biometric gate is BiometricService.authenticateWithBiometrics, a
submitted request always carries biometric_verified = true and the
biometric challenge returned success (on web the simulated confirm was
accepted; on native hardware was present, credentials enrolled, and the
platform challenge succeeded); and when the gate fails no request is
submitted at all. -/
theorem c2_no_biometric_bypass (env : Env) (be : BioEnv) (t : AttendanceType)
    (cid : Option ℤ)
    (henv : env.biometricResult = authenticateWithBiometrics be) :
    (∀ req, Step.submit req ∈ (markAttendance env t cid).2 →
        req.biometric_verified = true
          ∧ (authenticateWithBiometrics be).success = true
          ∧ (be.isWeb = true → be.windowAvailable = true ∧ be.webConfirm = true)
          ∧ (be.isWeb = false →
              be.hasHardware = true ∧ be.isEnrolled = true ∧ be.challengeSuccess = true))
    ∧ ((authenticateWithBiometrics be).success = false →
        ∀ req, Step.submit req ∉ (markAttendance env t cid).2)
    ∧ (∀ st req, Step.submit req ∈ (handleAttendanceAction st env t cid).2.1 →
        req.biometric_verified = true ∧ (authenticateWithBiometrics be).success = true)
    ∧ (∀ st req (c : ℤ),
        Step.submit req ∈ (handleClassAttendanceAction st env t c).2.1 →
        req.biometric_verified = true ∧ (authenticateWithBiometrics be).success = true) := by
  have hs : env.biometricResult.success = (authenticateWithBiometrics be).success := by
    rw [henv]
  refine ⟨?_, ?_, ?_, ?_⟩
  · intro req h
    obtain ⟨h1, h2⟩ := markAttendance_submit_mem env t cid req h
    have h3 : (authenticateWithBiometrics be).success = true := by rw [← hs]; exact h2
    refine ⟨h1, h3, ?_, ?_⟩
    · intro hw
      rcases (authenticate_success_iff be).1 h3 with ⟨_, hwa, hwc⟩ | ⟨hnw, _⟩
      · exact ⟨hwa, hwc⟩
      · rw [hw] at hnw; cases hnw
    · intro hw
      rcases (authenticate_success_iff be).1 h3 with ⟨hww, _⟩ | ⟨_, hh, he, hc⟩
      · rw [hw] at hww; cases hww
      · exact ⟨hh, he, hc⟩
  · intro hfail req h
    have h2 := (markAttendance_submit_mem env t cid req h).2
    rw [hs, hfail] at h2
    cases h2
  · intro st req h
    obtain ⟨h1, h2⟩ := handleAttendanceAction_submit_mem st env t cid req h
    exact ⟨h1, by rw [← hs]; exact h2⟩
  · intro st req c h
    obtain ⟨h1, h2⟩ := handleClassAttendanceAction_submit_mem st env t c req h
    exact ⟨h1, by rw [← hs]; exact h2⟩

/-- Witness for C2: in the all-success environment, whose biometric result
is that of a native successful challenge, the submitted request carries
biometric_verified = true and the challenge succeeded. -/
theorem c2_no_biometric_bypass_witness :
    (buildAttendanceRequest .work_checkin goodLoc none).biometric_verified = true
      ∧ (authenticateWithBiometrics beOk).success = true := by
  have h := (c2_no_biometric_bypass envAllGood beOk .work_checkin none rfl).1
    (buildAttendanceRequest .work_checkin goodLoc none) (by decide)
  exact ⟨h.1, h.2.1⟩

/-! ## C9: an unknown location is never inside the fence -/

/-- C9: whenever location acquisition fails (permission denied or a thrown
or failed position request), getCurrentLocation returns a result without a
geofence verdict, isWithinGeofence reads it as outside (false), and both
markAttendance and handleAttendanceAction abort at the location step with
a failure: the trace stops at the probe, so the biometric prompt and the
submission are never invoked. -/
theorem c9_location_failure_never_inside (hasPermission : Bool)
    (fix : Option LocationData) (d radius : ℚ) (env : Env)
    (t : AttendanceType) (cid : Option ℤ) (st : DashState)
    (hfail : hasPermission = false ∨ fix = none)
    (henv : env.locationResult = getCurrentLocation hasPermission fix d radius) :
    isWithinGeofence env.locationResult = false
    ∧ env.locationResult.success = false
    ∧ (markAttendance env t cid).2 = [.locate]
    ∧ (∃ msg, (markAttendance env t cid).1 = .locationFailed msg)
    ∧ (handleAttendanceAction st env t cid).2.1 = [.locate]
    ∧ (handleAttendanceAction st env t cid).1
        = .locationAlert env.locationResult.distance := by
  obtain ⟨lr, br, sr⟩ := env
  simp only at henv
  subst henv
  rcases hfail with h | h
  · subst h
    simp [getCurrentLocation, isWithinGeofence, markAttendance,
      handleAttendanceAction, locateTrace]
  · subst h
    cases hasPermission <;>
      simp [getCurrentLocation, isWithinGeofence, markAttendance,
        handleAttendanceAction, locateTrace]

/-- Witness for C9: with permission denied, the concrete failed
environment aborts at the probe and is never inside the fence. -/
theorem c9_location_failure_never_inside_witness :
    isWithinGeofence envLocFailed.locationResult = false
    ∧ envLocFailed.locationResult.success = false
    ∧ (markAttendance envLocFailed .work_checkin none).2 = [.locate]
    ∧ (∃ msg, (markAttendance envLocFailed .work_checkin none).1 = .locationFailed msg)
    ∧ (handleAttendanceAction stCheckedIn envLocFailed .work_checkin none).2.1 = [.locate]
    ∧ (handleAttendanceAction stCheckedIn envLocFailed .work_checkin none).1
        = .locationAlert envLocFailed.locationResult.distance :=
  c9_location_failure_never_inside false none 0 50 envLocFailed .work_checkin none
    stCheckedIn (Or.inl rfl) rfl

/-! ## C8: haversine symmetry and identity -/

/-- The haversine intermediate is symmetric in the two coordinates. -/
theorem haversineA_symm (lat1 lon1 lat2 lon2 : ℝ) :
    haversineA lat1 lon1 lat2 lon2 = haversineA lat2 lon2 lat1 lon1 := by
  unfold haversineA
  rw [show ((lat1 - lat2) * Real.pi / 180 / 2 : ℝ)
        = -((lat2 - lat1) * Real.pi / 180 / 2) by ring,
      show ((lon1 - lon2) * Real.pi / 180 / 2 : ℝ)
        = -((lon2 - lon1) * Real.pi / 180 / 2) by ring]
  simp only [Real.sin_neg]
  ring

/-- The haversine intermediate vanishes on equal coordinates. -/
theorem haversineA_self (lat lon : ℝ) : haversineA lat lon lat lon = 0 := by
  unfold haversineA
  simp

/-- C8: the haversine distance is symmetric, vanishes on equal coordinate
pairs, and the second textually identical copy in AttendanceService agrees
with LocationService.calculateDistance everywhere. -/
theorem c8_distance_symm_and_self :
    (∀ lat1 lon1 lat2 lon2 : ℝ,
        calculateDistance lat1 lon1 lat2 lon2 = calculateDistance lat2 lon2 lat1 lon1)
    ∧ (∀ lat lon : ℝ, calculateDistance lat lon lat lon = 0)
    ∧ (∀ lat1 lon1 lat2 lon2 : ℝ,
        attendanceCalculateDistance lat1 lon1 lat2 lon2
          = calculateDistance lat1 lon1 lat2 lon2) := by
  refine ⟨?_, ?_, ?_⟩
  · intro lat1 lon1 lat2 lon2
    show 6371000 * (2 * jsAtan2 (Real.sqrt (haversineA lat1 lon1 lat2 lon2))
          (Real.sqrt (1 - haversineA lat1 lon1 lat2 lon2)))
        = 6371000 * (2 * jsAtan2 (Real.sqrt (haversineA lat2 lon2 lat1 lon1))
          (Real.sqrt (1 - haversineA lat2 lon2 lat1 lon1)))
    rw [haversineA_symm]
  · intro lat lon
    show 6371000 * (2 * jsAtan2 (Real.sqrt (haversineA lat lon lat lon))
          (Real.sqrt (1 - haversineA lat lon lat lon))) = 0
    rw [haversineA_self]
    simp [jsAtan2, Real.sqrt_zero, Real.sqrt_one, Real.arctan_zero]
  · intro lat1 lon1 lat2 lon2
    rfl

/-! ## C3: resubmission to the fallback server -/

/-- C3 counterexample: in production, with the primary server failing and
the fallback succeeding, makeRequestWithFallback issues TWO POSTs of the
attendance write — the second to the alternate fallback base URL — and the
overall outcome is reported as success, so the failed submission is
automatically resubmitted rather than surfaced as a failure. -/
theorem c3_counterexample :
    (makeRequestWithFallback { isProd := true, usingFallback := false }
        (.err "Network Error") (.ok apiOk) .post "/api/attendance").2.1
      = [{ server := .primary, method := .post, endpoint := "/api/attendance" },
         { server := .fallback, method := .post, endpoint := "/api/attendance" }]
    ∧ (makeRequestWithFallback { isProd := true, usingFallback := false }
        (.err "Network Error") (.ok apiOk) .post "/api/attendance").1.success = true := by
  decide

/-- C3 amended: per request the client issues at most one attempt to each
of the two base URLs (at most two in total) and never re-sends to the same
server; a second attempt happens exactly in production, off the fallback,
after a primary failure, and goes to the fallback URL; outside production
a failed submission is surfaced as the handleError outcome with no
resubmission; and when both servers fail the outcome is a failure with no
further retry. -/
theorem c3_amended_fallback_retry (cfg : FallbackConfig)
    (pr fr : ReqResult) (m : Method) (e : String) :
    (makeRequestWithFallback cfg pr fr m e).2.1.length ≤ 2
    ∧ attemptsTo .primary (makeRequestWithFallback cfg pr fr m e).2.1 ≤ 1
    ∧ attemptsTo .fallback (makeRequestWithFallback cfg pr fr m e).2.1 ≤ 1
    ∧ ((makeRequestWithFallback cfg pr fr m e).2.1.map Attempt.server
          = [.primary, .fallback]
        ∨ (makeRequestWithFallback cfg pr fr m e).2.1.map Attempt.server = [.primary])
    ∧ ((makeRequestWithFallback cfg pr fr m e).2.1.length = 2 →
        cfg.isProd = true ∧ cfg.usingFallback = false ∧ ∃ msg, pr = .err msg)
    ∧ (cfg.isProd = false →
        (makeRequestWithFallback cfg pr fr m e).2.1.map Attempt.server = [.primary]
        ∧ ∀ msg, pr = .err msg → (makeRequestWithFallback cfg pr fr m e).1 = handleError msg)
    ∧ (∀ pm fm, pr = .err pm → fr = .err fm →
        ((makeRequestWithFallback cfg pr fr m e).1).success = false) := by
  obtain ⟨ip, uf⟩ := cfg
  rcases pr with r | pm <;> rcases fr with r2 | fm <;> cases ip <;> cases uf <;>
    simp [makeRequestWithFallback, attemptsTo, handleError]

/-- Witness for C3 (amended): in development a failed submission is
surfaced as the handleError outcome. -/
theorem c3_amended_fallback_retry_witness :
    (makeRequestWithFallback { isProd := false, usingFallback := false }
        (.err "boom") (.ok apiOk) .post "/api/attendance").1 = handleError "boom" :=
  ((c3_amended_fallback_retry { isProd := false, usingFallback := false }
      (.err "boom") (.ok apiOk) .post "/api/attendance").2.2.2.2.2.1 rfl).2 "boom" rfl

/-! ## C4: partial-fetch resilience -/

/-- C4 (evaluation at the failing input): with the work fetch succeeding —
its payload carrying the today record and is_checked_in = true — and the
class fetch failing, getAllAttendanceData reports success: false, and
loadAttendanceData consequently resets the whole dashboard view to the
empty default (work record null, is_checked_in false), discarding the
successful work data instead of keeping it with the class records
defaulted to empty. -/
theorem c4_partial_fetch_resets_whole_view :
    c4WorkResp.success = true
    ∧ (c4WorkResp.data.map fun d => d.work.today.is_checked_in) = some true
    ∧ (c4WorkResp.data.map fun d => d.work.today.work_attendance)
        = some (some workRecToday)
    ∧ classFetchFailed.success = false
    ∧ loadAttendanceData todayKey
        (getAllAttendanceData todayKey c4WorkResp classFetchFailed)
      = emptyView todayKey := by
  decide

/-! ## C5: no AlreadyCheckedIn short-circuit in the handler -/

/-- C5 counterexample: with the locally-held view showing
isCheckedInToWork = true and every collaborator succeeding,
handleWorkCheckIn does not short-circuit to an AlreadyCheckedIn failure:
it probes the location, evaluates the geofence, prompts the biometric gate
and submits, ending in the success alert. -/
theorem c5_counterexample :
    (stCheckedIn.attendanceData.map fun ad => ad.today.is_checked_in) = some true
    ∧ (handleWorkCheckIn stCheckedIn envAllGood).2.1
      = [.locate, .evalGeofence, .promptBiometric,
         .submit (buildAttendanceRequest .work_checkin goodLoc none)]
    ∧ (handleWorkCheckIn stCheckedIn envAllGood).1 = .successAlert := by
  decide

/-- C5 amended: the already-checked-in guard for work check-in lives only
in the UI — the Check In button is disabled whenever isCheckedInToWork is
true — while the handler itself never consults the held view (its outcome
and trace are identical for every component state) and always begins with
the location probe. -/
theorem c5_amended_guard_in_ui_only :
    (∀ ls al, workCheckInButtonDisabled true ls al = true)
    ∧ (∀ st st2 env, (handleWorkCheckIn st env).1 = (handleWorkCheckIn st2 env).1
        ∧ (handleWorkCheckIn st env).2.1 = (handleWorkCheckIn st2 env).2.1)
    ∧ (∀ st env, Step.locate ∈ (handleWorkCheckIn st env).2.1) := by
  refine ⟨?_, ?_, ?_⟩
  · intro ls al
    simp [workCheckInButtonDisabled]
  · intro st st2 env
    obtain ⟨⟨ls, lloc, lwg, ld, lerr⟩, ⟨bs, berr⟩, ⟨ss, serr⟩⟩ := env
    cases ls <;> cases bs <;> cases ss <;> rcases lwg with _ | (_ | _) <;>
      rcases lloc with _ | loc <;>
      simp [handleWorkCheckIn, handleAttendanceAction, locateTrace]
  · intro st env
    obtain ⟨⟨ls, lloc, lwg, ld, lerr⟩, ⟨bs, berr⟩, ⟨ss, serr⟩⟩ := env
    cases ls <;> cases bs <;> cases ss <;> rcases lwg with _ | (_ | _) <;>
      rcases lloc with _ | loc <;>
      simp [handleWorkCheckIn, handleAttendanceAction, locateTrace]

/-! ## C6: no busy-flag consultation in the handler -/

/-- C6 counterexample: a second work_checkout invocation arriving while
the first is still in flight (the busy flag actionLoading already equals
work_checkout) is not rejected: its trace still contains a submission, so
the two invocations together issue two submissions to the attendance API,
not exactly one. -/
theorem c6_counterexample :
    stBusyCheckOut.actionLoading = some .work_checkout
    ∧ countSubmits
        (handleAttendanceAction stBusyCheckOut envAllGood .work_checkout none).2.1 = 1
    ∧ countSubmits
        ((handleAttendanceAction stCheckedIn envAllGood .work_checkout none).2.1
          ++ (handleAttendanceAction stBusyCheckOut envAllGood .work_checkout none).2.1)
      = 2 := by
  decide

/-- C6 amended: the per-action-kind busy flag actionLoading is consulted
only by the UI — the Check Out button is disabled while actionLoading
equals work_checkout — while the handler itself ignores the incoming flag
(outcome and trace are unchanged by it), merely setting it on entry and
clearing it to none on every exit. -/
theorem c6_amended_busy_flag_ui_only :
    (∀ b ls, workCheckOutButtonDisabled b ls (some .work_checkout) = true)
    ∧ (∀ st env t cid al,
        (handleAttendanceAction { st with actionLoading := al } env t cid).1
            = (handleAttendanceAction st env t cid).1
          ∧ (handleAttendanceAction { st with actionLoading := al } env t cid).2.1
            = (handleAttendanceAction st env t cid).2.1)
    ∧ (∀ st env t cid,
        (handleAttendanceAction st env t cid).2.2.actionLoading = none) := by
  refine ⟨?_, ?_, ?_⟩
  · intro b ls
    cases b <;> simp [workCheckOutButtonDisabled]
  · intro st env t cid al
    obtain ⟨⟨ls, lloc, lwg, ld, lerr⟩, ⟨bs, berr⟩, ⟨ss, serr⟩⟩ := env
    cases ls <;> cases bs <;> cases ss <;> rcases lwg with _ | (_ | _) <;>
      rcases lloc with _ | loc <;>
      simp [handleAttendanceAction, locateTrace]
  · intro st env t cid
    obtain ⟨⟨ls, lloc, lwg, ld, lerr⟩, ⟨bs, berr⟩, ⟨ss, serr⟩⟩ := env
    cases ls <;> cases bs <;> cases ss <;> rcases lwg with _ | (_ | _) <;>
      rcases lloc with _ | loc <;>
      simp [handleAttendanceAction, locateTrace]

/-! ## C7: derivation of is_checked_in -/

/-- C7 counterexample: on an employee payload whose explicit isCheckedIn
flag is false while the today record has a check-in time and no check-out
time, the transform derives is_checked_in = true: the record-derived value
overrides the explicit false server flag, so the flag value does not
take precedence. -/
theorem c7_counterexample :
    (rawEmployeeFlagFalse.data.map fun rd => rd.isCheckedIn) = some (some false)
    ∧ ((getAttendanceDataTransform (fun s => s) todayKey rawEmployeeFlagFalse).data.map
        fun d => d.work.today.is_checked_in) = some true := by
  decide

/-- C7 amended: for every successful employee payload the transform
derives is_checked_in as the disjunction of the truthiness of the server
isCheckedIn flag and the record-derived value (a found current-day record
with a truthy check-in time and no truthy check-out time); a truthy flag
forces true, but an explicit false flag is overridden by the record, and
with the flag absent or falsy and no such record the result is false. -/
theorem c7_amended_flag_disjunction (normDate : String → String) (today : String)
    (resp : GetResp RawAttendanceResponse) (rd : RawAttendanceResponse)
    (hs : resp.success = true) (hd : resp.data = some rd) (hr : rd.role = "employee") :
    ((getAttendanceDataTransform normDate today resp).data.map
        fun d => d.work.today.is_checked_in)
      = some ((rd.isCheckedIn == some true)
          || (match rd.attendanceData.find? (fun r =>
                match r.date with
                | none => false
                | some d => normDate d = today) with
              | some tr => jsTruthyStr tr.check_in_time && !jsTruthyStr tr.check_out_time
              | none => false)) := by
  rcases hfind : rd.attendanceData.find? (fun r =>
      match r.date with
      | none => false
      | some d => normDate d = today) with _ | tr
  · simp [getAttendanceDataTransform, hs, hd, hr, hfind]
  · simp only [getAttendanceDataTransform, hs, hd, hr, hfind]
    cases hflag : (rd.isCheckedIn == some true) <;>
      cases hin : jsTruthyStr tr.check_in_time <;>
      cases hout : jsTruthyStr tr.check_out_time <;>
      simp_all

/-- Witness for C7 (amended): applied to the concrete payload with the
explicit false flag and a checked-in today record, the derivation yields
true. -/
theorem c7_amended_flag_disjunction_witness :
    ((getAttendanceDataTransform (fun s => s) todayKey rawEmployeeFlagFalse).data.map
        fun d => d.work.today.is_checked_in) = some true := by
  have h := c7_amended_flag_disjunction (fun s => s) todayKey rawEmployeeFlagFalse
    { role := "employee", attendanceData := [workRecToday], isCheckedIn := some false }
    rfl rfl rfl
  rw [h]
  decide

/-! ## C10: class_id truthiness -/

/-- C10: request construction includes the class_id field iff the supplied
classId is truthy, so a class action explicitly invoked with classId = 0
submits a request that omits the field entirely: with every collaborator
succeeding, markAttendance for class_checkin with classId 0 submits a
request whose class_id is absent. -/
theorem c10_class_id_truthiness :
    (∀ t loc (c : ℤ), c ≠ 0 → (buildAttendanceRequest t loc (some c)).class_id = some c)
    ∧ (∀ t loc, (buildAttendanceRequest t loc (some 0)).class_id = none)
    ∧ (∀ t loc, (buildAttendanceRequest t loc none).class_id = none)
    ∧ (markAttendance envAllGood .class_checkin (some 0)).2
        = [.locate, .evalGeofence, .promptBiometric,
           .submit { type := .class_checkin, location := goodLoc
                     biometric_verified := true, class_id := none }] := by
  refine ⟨?_, ?_, ?_, by decide⟩
  · intro t loc c hc
    simp [buildAttendanceRequest, hc]
  · intro t loc
    simp [buildAttendanceRequest]
  · intro t loc
    rfl

/-- Witness for C10: a truthy classId (7) is included, classId = 0 is
dropped. -/
theorem c10_class_id_truthiness_witness :
    (buildAttendanceRequest .class_checkin goodLoc (some 7)).class_id = some 7
    ∧ (buildAttendanceRequest .class_checkin goodLoc (some 0)).class_id = none :=
  ⟨c10_class_id_truthiness.1 .class_checkin goodLoc 7 (by decide),
   c10_class_id_truthiness.2.1 .class_checkin goodLoc⟩

end Attend
